import Mathlib

/-!
Shallow embedding of the Bassa client libraries
(`src/js_lib/bassa/bassa.js` and `src/go_lib/bassa.go`).

Each client method is split into two pure pieces:

* a step function taking the client state and the call arguments and
  returning the (possibly updated) state together with either a
  validation failure raised before any network call, or the descriptor
  of the single HTTP request the method issues;
* where the method installs a response handler, a handler function
  taking the received HTTP response and returning the method's outcome.

The HTTP transport (axios / heimdall httpclient), TLS, retries, the JSON
serializer and the pretty-printer are external collaborators: bodies are
represented structurally (key/value pairs for form-encoded bodies, a
`Json` document for serializer-produced JSON bodies, a raw string for the
Go `fmt.Sprintf` bodies), and a response carries its body already parsed
as JSON when it parses at all (`Option Json`).
-/

namespace Bassa

/-- JSON documents, as exchanged with the JSON libraries both clients
delegate to (object fields are kept in the order the serializer emits). -/
inductive Json where
  | null
  | bool (b : Bool)
  | num (n : Int)
  | str (s : String)
  | arr (elems : List Json)
  | obj (fields : List (String × Json))

/-- HTTP request methods used by the clients. -/
inductive HttpMethod where
  | get
  | post
  | put
  | delete
  deriving DecidableEq, Repr

/-- Request bodies: none, form-encoded key/value pairs (URLSearchParams /
url.Values), a serializer-produced JSON document (JSON.stringify /
json.Marshal), or a raw string (the Go fmt.Sprintf bodies). -/
inductive RequestBody where
  | empty
  | form (fields : List (String × String))
  | jsonBody (doc : Json)
  | raw (s : String)

/-- True exactly on form-encoded bodies. -/
def isFormBody : RequestBody → Bool
  | .form _ => true
  | _ => false

/-- Header maps, in insertion order; the value is optional because a JS
header slot can hold the undefined value. -/
abbrev Headers := List (String × Option String)

/-- Descriptor of one HTTP request: method, endpoint path (resolved
against the configured base URL by the transport; a query string, when
the source builds one, is kept in the path), headers and body. -/
structure Request where
  method : HttpMethod
  path : String
  headers : Headers
  body : RequestBody

/-- Errors raised by the JS client (`src/js_lib/bassa/errors`): InvalidUrl,
IncompleteParams, ResponseError, or a plain Error with its message. -/
inductive JsError where
  | invalidUrl
  | incompleteParams
  | responseError (msg : String)
  | genericError (msg : String)
  deriving DecidableEq, Repr

/-- Result of the request phase of a JS method: either an error thrown
before any HTTP request is issued, or exactly one HTTP request with the
given descriptor. -/
inductive Step where
  | fail (e : JsError)
  | request (r : Request)

/-- The JS client state: constructor arguments plus the mutable header
map (`this.headers`), which holds the Content-Type entry, the session
token once login stores it, and the download server key once
startDownload/killDownload store it. -/
structure JsClient where
  apiUrl : String
  total : Int
  backoffFactor : Int
  timeout : Int
  headers : Headers
  deriving DecidableEq, Repr

/-- An HTTP response as the JS handlers see it: status, the token
response header (absent headers read as the undefined value), and the
body as parsed JSON when it parses. -/
structure JsResponse where
  status : Nat
  token : Option String
  bodyJson : Option Json

/- ---------------------------------------------------------------------
The base-URL regular expression of the JS constructor, embedded as a
decidable matcher.  The pattern (with the i flag) is

  (caret)(?:http|ftp)s?://
  (?:(?:[A-Z0-9](?:[A-Z0-9-]\x7b0,61\x7d[A-Z0-9])?\.)+(?:[A-Z]\x7b2,6\x7d\.?|[A-Z0-9-]\x7b2,\x7d\.?)|
  localhost|
  \d\x7b1,3\x7d\.\d\x7b1,3\x7d\.\d\x7b1,3\x7d\.\d\x7b1,3\x7d)
  (?::\d+)?
  (?:/?|[/?]\S+)(dollar)

The host classes contain no colon, slash or question mark and the port
and path parts begin with one of those three characters, so the split of
the input into scheme, host, port and path is deterministic and the
matcher below needs no backtracking.
--------------------------------------------------------------------- -/

/-- Splitting a character list on a one-character separator, the way the
source regexes cut a host or email domain at its dots and an email at
its at sign (structural recursion, so it evaluates inside the kernel). -/
def splitOnChar (sep : Char) : List Char → List (List Char)
  | [] => [[]]
  | c :: cs =>
      match splitOnChar sep cs with
      | h :: t => if c == sep then [] :: h :: t else (c :: h) :: t
      | [] => if c == sep then [[], []] else [[c]]  -- unreachable: never empty

/-- One DNS label: an alphanumeric, optionally followed by up to 61
alphanumeric-or-hyphen characters and a final alphanumeric (the pattern
[a-zA-Z0-9](?:[a-zA-Z0-9-]\x7b0,61\x7d[a-zA-Z0-9])?, shared verbatim by
the JS URL regex and the Go email regex). -/
def labelOk (s : List Char) : Bool :=
  match s with
  | [] => false
  | [c] => c.isAlphanum
  | c :: rest =>
      c.isAlphanum && rest.length ≤ 62 &&
      (match rest.getLast? with
       | some d => d.isAlphanum
       | none => false) &&
      rest.dropLast.all (fun d => d.isAlphanum || d == '-')

/-- The final domain component of the URL regex: 2 to 6 letters, or at
least 2 alphanumeric-or-hyphen characters (an optional trailing dot is
handled by `domainOk`). -/
def tldOk (s : List Char) : Bool :=
  (2 ≤ s.length && s.length ≤ 6 && s.all Char.isAlpha) ||
  (2 ≤ s.length && s.all (fun c => c.isAlphanum || c == '-'))

/-- The domain alternative of the URL regex: one or more dot-terminated
labels followed by a final component, which may carry a trailing dot. -/
def domainOk (s : List Char) : Bool :=
  let parts := splitOnChar '.' s
  let core := if parts.getLast? == some [] then parts.dropLast else parts
  match core.getLast? with
  | some tld => !core.dropLast.isEmpty && core.dropLast.all labelOk && tldOk tld
  | none => false

/-- The IP alternative of the URL regex: four dot-separated runs of one
to three digits. -/
def ipOk (s : List Char) : Bool :=
  let parts := splitOnChar '.' s
  parts.length == 4 &&
  parts.all (fun p => 1 ≤ p.length && p.length ≤ 3 && p.all Char.isDigit)

/-- The host alternation of the URL regex: domain, localhost, or IP. -/
def hostOk (s : List Char) : Bool :=
  domainOk s || s == "localhost".toList || ipOk s

/-- The scheme prefix (?:http|ftp)s?:// of the URL regex, on the
lowercased input; returns the remainder after the scheme. -/
def stripScheme (s : List Char) : Option (List Char) :=
  match s with
  | 'h' :: 't' :: 't' :: 'p' :: 's' :: ':' :: '/' :: '/' :: rest => some rest
  | 'h' :: 't' :: 't' :: 'p' :: ':' :: '/' :: '/' :: rest => some rest
  | 'f' :: 't' :: 'p' :: 's' :: ':' :: '/' :: '/' :: rest => some rest
  | 'f' :: 't' :: 'p' :: ':' :: '/' :: '/' :: rest => some rest
  | _ => none

/-- The trailing path part (?:/?|[/?]\S+) of the URL regex, anchored to
the end: empty, a single slash, or a slash or question mark followed by
at least one non-whitespace character. -/
def pathPartOk (s : List Char) : Bool :=
  match s with
  | [] => true
  | [c] => c == '/'
  | c :: rest =>
      (c == '/' || c == '?') && !rest.isEmpty &&
      rest.all (fun d => !d.isWhitespace)

/-- The optional port followed by the path part: (?::\d+)? then
`pathPartOk`. -/
def portPathOk (s : List Char) : Bool :=
  match s with
  | ':' :: rest =>
      let ds := rest.takeWhile Char.isDigit
      !ds.isEmpty && pathPartOk (rest.drop ds.length)
  | _ => pathPartOk s

/-- The whole base-URL regular expression of the JS constructor.  The
regex carries the i flag, so the characters are lowercased first. -/
def jsUrlOk (apiUrl : String) : Bool :=
  let l := apiUrl.toList.map Char.toLower
  match stripScheme l with
  | none => false
  | some rest =>
      let host := rest.takeWhile (fun c => c != ':' && c != '/' && c != '?')
      hostOk host && portPathOk (rest.drop host.length)

/-- The JS constructor: installs the default Content-Type header and
throws InvalidUrl when the base URL fails the regex test. -/
def jsConstructor (apiUrl : String) (total backoffFactor timeout : Int) :
    Except JsError JsClient :=
  if jsUrlOk apiUrl then
    .ok { apiUrl := apiUrl, total := total, backoffFactor := backoffFactor,
          timeout := timeout,
          headers := [("Content-Type", some "application/x-www-form-urlencoded")] }
  else
    .error .invalidUrl

/-- Assignment to a JS object property in an insertion-ordered header
map: overwrite in place when the key exists, append otherwise. -/
def setHeader (hs : Headers) (k : String) (v : Option String) : Headers :=
  if hs.any (fun p => p.1 == k) then
    hs.map (fun p => if p.1 == k then (k, v) else p)
  else
    hs ++ [(k, v)]

/- ---------------------------------------------------------------------
JS client methods, request phase.  A string argument equal to "" models
a falsy required argument (in JS both the empty string and an absent,
undefined or null argument fail the same truthiness test); arguments
whose absence the source distinguishes from ordinary values (the
numeric limit of getDownloadsRequest, the defaulted parameters, the
auth_level null test of updateUserRequest) are modelled as Option.
--------------------------------------------------------------------- -/

/-- login: form-encoded POST /api/login (no response handler here; see
`jsLoginHandle`). -/
def jsLogin (c : JsClient) (user_name password : String) : JsClient × Step :=
  if user_name = "" ∨ password = "" then (c, .fail .incompleteParams)
  else
    (c, .request
      { method := .post, path := "/api/login", headers := c.headers,
          body := .form [("user_name", user_name), ("password", password)] })

/-- addRegularUserRequest: form-encoded POST /api/regularuser; note the
source performs no email-format validation. -/
def jsAddRegularUserRequest (c : JsClient) (user_name password email : String) :
    JsClient × Step :=
  if user_name = "" ∨ password = "" ∨ email = "" then (c, .fail .incompleteParams)
  else
    (c, .request
      { method := .post, path := "/api/regularuser", headers := c.headers,
          body := .form [("user_name", user_name), ("password", password),
                         ("email", email)] })

/-- addUserRequest: form-encoded POST /api/user (auth_level defaults to 1
at the call site; URLSearchParams stringifies the number). -/
def jsAddUserRequest (c : JsClient) (user_name password email : String)
    (auth_level : Int) : JsClient × Step :=
  if user_name = "" ∨ password = "" ∨ email = "" then (c, .fail .incompleteParams)
  else
    (c, .request
      { method := .post, path := "/api/user", headers := c.headers,
          body := .form [("user_name", user_name), ("password", password),
                         ("email", email), ("auth", toString auth_level)] })

/-- removeUserRequest: DELETE /api/user/(user_name). -/
def jsRemoveUserRequest (c : JsClient) (user_name : String) : JsClient × Step :=
  if user_name = "" then (c, .fail .incompleteParams)
  else
    (c, .request
      { method := .delete, path := "/api/user/" ++ user_name,
          headers := c.headers, body := .empty })

/-- updateUserRequest: form-encoded PUT /api/user/(user_name); the
auth_level test in the source is a null test, so the argument is an
Option and only none fails it (getD is only reached when it is some). -/
def jsUpdateUserRequest (c : JsClient) (user_name new_user_name password : String)
    (auth_level : Option Int) (email : String) : JsClient × Step :=
  if user_name = "" ∨ new_user_name = "" ∨ password = "" ∨ auth_level = none ∨
      email = "" then
    (c, .fail .incompleteParams)
  else
    (c, .request
      { method := .put, path := "/api/user/" ++ user_name,
          headers := c.headers,
          body := .form [("user_name", new_user_name), ("password", password),
                         ("auth_level", toString (auth_level.getD 0)),
                         ("email", email)] })

/-- getUserRequest: GET /api/user. -/
def jsGetUserRequest (c : JsClient) : JsClient × Step :=
  (c, .request
      { method := .get, path := "/api/user", headers := c.headers,
        body := .empty })

/-- getUserSignupRequests: GET /api/user/requests. -/
def jsGetUserSignupRequests (c : JsClient) : JsClient × Step :=
  (c, .request
      { method := .get, path := "/api/user/requests", headers := c.headers,
        body := .empty })

/-- approveUserRequest: POST /api/user/approve/(user_name) with null body. -/
def jsApproveUserRequest (c : JsClient) (user_name : String) : JsClient × Step :=
  if user_name = "" then (c, .fail .incompleteParams)
  else
    (c, .request
      { method := .post, path := "/api/user/approve/" ++ user_name,
          headers := c.headers, body := .empty })

/-- getBlockedUsersRequest: GET /api/user/blocked. -/
def jsGetBlockedUsersRequest (c : JsClient) : JsClient × Step :=
  (c, .request
      { method := .get, path := "/api/user/blocked", headers := c.headers,
        body := .empty })

/-- blockUserRequest: POST /api/user/blocked/(user_name) with null body. -/
def jsBlockUserRequest (c : JsClient) (user_name : String) : JsClient × Step :=
  if user_name = "" then (c, .fail .incompleteParams)
  else
    (c, .request
      { method := .post, path := "/api/user/blocked/" ++ user_name,
          headers := c.headers, body := .empty })

/-- unblockUserRequest: DELETE /api/user/blocked/(user_name). -/
def jsUnblockUserRequest (c : JsClient) (user_name : String) : JsClient × Step :=
  if user_name = "" then (c, .fail .incompleteParams)
  else
    (c, .request
      { method := .delete, path := "/api/user/blocked/" ++ user_name,
          headers := c.headers, body := .empty })

/-- getDownloadsUserRequest: GET /api/user/downloads/(limit); the JS
default parameter (limit = 1) applies only when the argument is absent,
so an explicit 0 is interpolated as 0. -/
def jsGetDownloadsUserRequest (c : JsClient) (limit : Option Int) : JsClient × Step :=
  let l := limit.getD 1
  (c, .request
      { method := .get, path := "/api/user/downloads/" ++ toString l,
        headers := c.headers, body := .empty })

/-- getToptenHeaviestUsers: GET /api/user/heavy. -/
def jsGetToptenHeaviestUsers (c : JsClient) : JsClient × Step :=
  (c, .request
      { method := .get, path := "/api/user/heavy", headers := c.headers,
        body := .empty })

/-- startDownload: writes the server key (default "123456789") into the
stored headers, then GET /api/download/start with those headers. -/
def jsStartDownload (c : JsClient) (server_key : Option String) : JsClient × Step :=
  let k := server_key.getD "123456789"
  let c' := { c with headers := setHeader c.headers "key" (some k) }
  (c', .request
      { method := .get, path := "/api/download/start",
        headers := c'.headers, body := .empty })

/-- killDownload: writes the server key (default "123456789") into the
stored headers, then GET /api/download/kill with those headers. -/
def jsKillDownload (c : JsClient) (server_key : Option String) : JsClient × Step :=
  let k := server_key.getD "123456789"
  let c' := { c with headers := setHeader c.headers "key" (some k) }
  (c', .request
      { method := .get, path := "/api/download/kill",
        headers := c'.headers, body := .empty })

/-- addDownloadRequest: POST /api/download with JSON.stringify-produced
body. -/
def jsAddDownloadRequest (c : JsClient) (download_link : String) : JsClient × Step :=
  if download_link = "" then (c, .fail .incompleteParams)
  else
    (c, .request
      { method := .post, path := "/api/download", headers := c.headers,
          body := .jsonBody (.obj [("link", .str download_link)]) })

/-- removeDownloadRequest: DELETE /api/download/(id). -/
def jsRemoveDownloadRequest (c : JsClient) (id : String) : JsClient × Step :=
  if id = "" then (c, .fail (.genericError "ID is required to remove download"))
  else
    (c, .request
      { method := .delete, path := "/api/download/" ++ id,
          headers := c.headers, body := .empty })

/-- rateDownloadRequest: POST /api/download/(id) with JSON.stringify-produced
body (the rate value passes through the serializer unchanged). -/
def jsRateDownloadRequest (c : JsClient) (id rate : String) : JsClient × Step :=
  if id = "" ∨ rate = "" then
    (c, .fail (.genericError "ID and rate are required to rate download"))
  else
    (c, .request
      { method := .post, path := "/api/download/" ++ id,
          headers := c.headers, body := .jsonBody (.obj [("rate", .str rate)]) })

/-- getDownloadsRequest: GET /api/downloads/(limit); the source tests the
limit against undefined and null only, so zero passes validation. -/
def jsGetDownloadsRequest (c : JsClient) (limit : Option Int) : JsClient × Step :=
  match limit with
  | none => (c, .fail (.genericError "Limit is required to get downloads"))
  | some l =>
      (c, .request
      { method := .get, path := "/api/downloads/" ++ toString l,
            headers := c.headers, body := .empty })

/-- getDownload: GET /api/download/(id). -/
def jsGetDownload (c : JsClient) (id : String) : JsClient × Step :=
  if id = "" then (c, .fail (.genericError "ID is required to get download"))
  else
    (c, .request
      { method := .get, path := "/api/download/" ++ id,
          headers := c.headers, body := .empty })

/-- startCompression: POST /api/compress with JSON.stringify-produced
body carrying the gid list. -/
def jsStartCompression (c : JsClient) (gidList : List String) : JsClient × Step :=
  if gidList = [] then
    (c, .fail (.genericError "GID list is required to start compression"))
  else
    (c, .request
      { method := .post, path := "/api/compress", headers := c.headers,
          body := .jsonBody (.obj [("gid", .arr (gidList.map .str))]) })

/-- getCompressionProgress: GET /api/compression-progress/(id). -/
def jsGetCompressionProgress (c : JsClient) (id : String) : JsClient × Step :=
  if id = "" then
    (c, .fail (.genericError "ID is required to get compression progress"))
  else
    (c, .request
      { method := .get, path := "/api/compression-progress/" ++ id,
          headers := c.headers, body := .empty })

/-- sendFileFromPath: GET /api/file with the gid query parameter (the
URL object's percent-encoding of the id is left to the transport). -/
def jsSendFileFromPath (c : JsClient) (id : String) : JsClient × Step :=
  if id = "" then (c, .fail (.genericError "ID is required to send file from path"))
  else
    (c, .request
      { method := .get, path := "/api/file?gid=" ++ id,
          headers := c.headers, body := .empty })

/- ---------------------------------------------------------------------
JS client methods, response phase.  Only the methods that attach a .then
handler to the transport promise have one here; addRegularUserRequest,
addUserRequest, removeUserRequest, updateUserRequest, approveUserRequest,
blockUserRequest and unblockUserRequest attach none, so their promise
resolves to the raw transport response with no status check and no
JSON-returning step.
--------------------------------------------------------------------- -/

/-- The response.json() read: the parsed body, or a rejection when the
body is not JSON. -/
def readJson (r : JsResponse) : Except JsError Json :=
  match r.bodyJson with
  | some j => .ok j
  | none => .error (.genericError "invalid JSON body")

/-- login's handler: on status 200 store the token response header into
the stored headers (a JS property write, so an absent header stores the
undefined value); on any other status raise ResponseError with the
status interpolated into the message and leave the client unchanged. -/
def jsLoginHandle (c : JsClient) (r : JsResponse) : JsClient × Except JsError Unit :=
  if r.status = 200 then
    ({ c with headers := setHeader c.headers "token" r.token }, .ok ())
  else
    (c, .error (.responseError ("API response: " ++ toString r.status)))

/-- The handler shape shared by the JS query methods: on status 200
return the parsed JSON body, otherwise raise an Error whose message is
the given prefix followed by the status. -/
def jsStdHandle (msg : String) (r : JsResponse) : Except JsError Json :=
  if r.status = 200 then readJson r
  else .error (.genericError (msg ++ toString r.status))

/-- getUserRequest's handler. -/
def jsGetUserHandle (r : JsResponse) : Except JsError Json :=
  jsStdHandle "Request failed with status " r

/-- getUserSignupRequests's handler. -/
def jsGetUserSignupHandle (r : JsResponse) : Except JsError Json :=
  jsStdHandle "Request failed with status " r

/-- getBlockedUsersRequest's handler. -/
def jsGetBlockedUsersHandle (r : JsResponse) : Except JsError Json :=
  jsStdHandle "Request failed with status " r

/-- getDownloadsUserRequest's handler. -/
def jsGetDownloadsUserHandle (r : JsResponse) : Except JsError Json :=
  jsStdHandle "Request failed with status " r

/-- getToptenHeaviestUsers's handler. -/
def jsGetToptenHandle (r : JsResponse) : Except JsError Json :=
  jsStdHandle "Request failed with status " r

/-- startDownload's handler. -/
def jsStartDownloadHandle (r : JsResponse) : Except JsError Json :=
  jsStdHandle "Request failed with status " r

/-- killDownload's handler. -/
def jsKillDownloadHandle (r : JsResponse) : Except JsError Json :=
  jsStdHandle "Request failed with status " r

/-- addDownloadRequest's handler: the non-200 branch raises an Error with
a fixed message that does not mention the status. -/
def jsAddDownloadHandle (r : JsResponse) : Except JsError Json :=
  if r.status ≠ 200 then .error (.genericError "Add download was not successful")
  else readJson r

/-- removeDownloadRequest's handler. -/
def jsRemoveDownloadHandle (r : JsResponse) : Except JsError Json :=
  if r.status ≠ 200 then
    .error (.genericError ("Remove download failed with status " ++ toString r.status))
  else readJson r

/-- rateDownloadRequest's handler. -/
def jsRateDownloadHandle (r : JsResponse) : Except JsError Json :=
  if r.status ≠ 200 then
    .error (.genericError ("Rate download failed with status " ++ toString r.status))
  else readJson r

/-- getDownloadsRequest's handler. -/
def jsGetDownloadsHandle (r : JsResponse) : Except JsError Json :=
  jsStdHandle "Get downloads failed with status " r

/-- getDownload's handler. -/
def jsGetDownloadHandle (r : JsResponse) : Except JsError Json :=
  jsStdHandle "Get download failed with status " r

/-- startCompression's handler. -/
def jsStartCompressionHandle (r : JsResponse) : Except JsError Json :=
  jsStdHandle "Start compression failed with status " r

/-- getCompressionProgress's handler. -/
def jsGetCompressionProgressHandle (r : JsResponse) : Except JsError Json :=
  jsStdHandle "Get compression progress failed with status " r

/-- sendFileFromPath's handler. -/
def jsSendFileFromPathHandle (r : JsResponse) : Except JsError Json :=
  jsStdHandle "Send file from path failed with status " r

/- ---------------------------------------------------------------------
The Go client (`src/go_lib/bassa.go`).
--------------------------------------------------------------------- -/

/-- The Go Bassa struct (the heimdall httpClient field is transport
configuration, out of scope). -/
structure GoBassa where
  apiURL : String
  token : String
  timeout : Int
  retryCount : Int
  deriving DecidableEq, Repr

/-- An HTTP response as the Go code sees it: status, the Token header
value slice (response.Header is a map from header name to a slice of
values; a missing key reads as the empty slice), and the body as parsed
JSON when it parses. -/
structure GoResponse where
  status : Nat
  tokenHeader : List String
  bodyJson : Option Json

/-- Result of the request phase of a Go method: a panic with
errIncompleteParams, a panic with errBadFormat, or exactly one HTTP
request with the given descriptor. -/
inductive GoStep where
  | panicIncomplete
  | panicBadFormat
  | request (r : Request)

/-- The body of a Go request step, when it issues one. -/
def stepBodyGo : GoStep → Option RequestBody
  | .request r => some r.body
  | _ => none

/-- The character class of the local part of the Go email regular
expression: alphanumerics plus the specials . ! # dollar percent ampersand
apostrophe asterisk plus slash equals question caret underscore backtick
opening-brace pipe closing-brace tilde hyphen (the four characters the
source file cannot spell literally are given by code point: 39
apostrophe, 96 backtick, 123 and 125 braces). -/
def isEmailLocalChar (c : Char) : Bool :=
  c.isAlphanum || c == '.' || c == '!' || c == '#' || c == '$' || c == '%' ||
  c == '&' || c.toNat == 39 || c == '*' || c == '+' || c == '/' || c == '=' ||
  c == '?' || c == '^' || c == '_' || c.toNat == 96 || c.toNat == 123 ||
  c == '|' || c.toNat == 125 || c == '~' || c == '-'

/-- The Go email regular expression: a non-empty local part over
`isEmailLocalChar` (which excludes the at sign), one at sign, and a
domain of one or more dot-separated labels, each matching the shared
`labelOk` pattern. -/
def goEmailOk (email : String) : Bool :=
  match splitOnChar '@' email.toList with
  | [lp, domain] =>
      !lp.isEmpty && lp.all isEmailLocalChar &&
      (splitOnChar '.' domain).all labelOk
  | _ => false

/-- A modelled fragment of Go net/url.Parse (external standard library):
a string containing no colon (so no scheme and no first-segment colon),
no slash (so no authority and no host validation), no percent sign (so
no escape-decoding errors) and no ASCII control byte is always accepted
by Parse, which reads it as a scheme-less relative reference.  This is a
sufficient condition for Parse success; the theorems below only evaluate
`goInit` on strings inside this fragment. -/
def goUrlParseAcceptsSimple (s : String) : Bool :=
  s.toList.all (fun c =>
    32 ≤ c.toNat && c.toNat != 127 && c != ':' && c != '/' && c != '%')

/-- Result of Go Init: a panic with errIncompleteParams, a panic with the
url.Parse error, or the initialized struct. -/
inductive GoInitResult where
  | panicIncomplete
  | panicParseError
  | ok (b : GoBassa)
  deriving DecidableEq, Repr

/-- Init: panics with errIncompleteParams when the URL is empty or the
timeout zero, otherwise parses the URL with net/url.Parse (modelled on
the fragment of `goUrlParseAcceptsSimple`; outside that fragment this
model conservatively reports a parse panic, and no theorem evaluates it
there) and on success stores the configuration with an empty token. -/
def goInit (apiURL : String) (timeout retryCount : Int) : GoInitResult :=
  if apiURL = "" ∨ timeout = 0 then .panicIncomplete
  else if goUrlParseAcceptsSimple apiURL then
    .ok { apiURL := apiURL, token := "", timeout := timeout,
          retryCount := retryCount }
  else .panicParseError

/-- Login, request phase: panics with errIncompleteParams on an empty
argument, otherwise posts the form-encoded credentials to /api/login
(http.PostForm sets no token header). -/
def goLogin_step (b : GoBassa) (userName password : String) : GoBassa × GoStep :=
  if userName = "" ∨ password = "" then (b, .panicIncomplete)
  else
    (b, .request
      { method := .post, path := "/api/login", headers := [],
        body := .form [("user_name", userName), ("password", password)] })

/-- Outcome of Login's response phase. -/
inductive GoLoginOutcome where
  | panicIndexOutOfRange
  | ok (b : GoBassa)
  deriving DecidableEq, Repr

/-- Login, response phase: without any status check the source executes
b.token = response.Header["Token"][0]; when the Token header is absent
the slice is empty and the index expression panics with an
index-out-of-range runtime error, otherwise the first value becomes the
session token whatever the response status. -/
def goLoginHandle (b : GoBassa) (r : GoResponse) : GoLoginOutcome :=
  match r.tokenHeader with
  | [] => .panicIndexOutOfRange
  | t :: _ => .ok { b with token := t }

/-- AddRegularUserRequest, request phase: empty-argument check, then the
email regex check (panicking with errBadFormat on failure), then a POST
to /api/regularuser whose body is json.Marshal of a string map — a JSON
object, with the keys in the sorted order json.Marshal emits — and a
token header holding the stored session token. -/
def goAddRegularUserRequest_step (b : GoBassa) (userName password email : String) :
    GoBassa × GoStep :=
  if userName = "" ∨ password = "" ∨ email = "" then (b, .panicIncomplete)
  else if goEmailOk email then
    (b, .request
      { method := .post, path := "/api/regularuser",
        headers := [("token", some b.token)],
        body := .jsonBody (.obj [("email", .str email), ("password", .str password),
                                 ("user_name", .str userName)]) })
  else (b, .panicBadFormat)

/-- AddUserRequest, request phase: same validation as
AddRegularUserRequest, then a POST to /api/user whose body is the
fmt.Sprintf-formatted brace-delimited string of the source (not
form-encoded and not produced by a JSON serializer). -/
def goAddUserRequest_step (b : GoBassa) (userName password email : String)
    (authLevel : Int) : GoBassa × GoStep :=
  if userName = "" ∨ password = "" ∨ email = "" then (b, .panicIncomplete)
  else if goEmailOk email then
    (b, .request
      { method := .post, path := "/api/user", headers := [("token", some b.token)],
        body := .raw ("\x7buser_name:\"" ++ userName ++ "\", password: \"" ++
                      password ++ "\", email: \"" ++ email ++ "\", auth: " ++
                      toString authLevel ++ "\x7d") })
  else (b, .panicBadFormat)

/-- RemoveUserRequest, request phase: empty-argument check, then DELETE
/api/user/(userName) with the token header. -/
def goRemoveUserRequest_step (b : GoBassa) (userName : String) : GoBassa × GoStep :=
  if userName = "" then (b, .panicIncomplete)
  else
    (b, .request
      { method := .delete, path := "/api/user/" ++ userName,
        headers := [("token", some b.token)], body := .empty })

/-- UpdateUserRequest, request phase: empty-argument check over userName,
password, email and newUserName, the email regex check, then a PUT to
/api/user/(userName) with the fmt.Sprintf-formatted brace-delimited body
of the source. -/
def goUpdateUserRequest_step (b : GoBassa) (userName newUserName password : String)
    (authLevel : Int) (email : String) : GoBassa × GoStep :=
  if userName = "" ∨ password = "" ∨ email = "" ∨ newUserName = "" then
    (b, .panicIncomplete)
  else if goEmailOk email then
    (b, .request
      { method := .put, path := "/api/user/" ++ userName,
        headers := [("token", some b.token)],
        body := .raw ("\x7buser_name:\"" ++ newUserName ++ "\", password: \"" ++
                      password ++ "\", email: \"" ++ email ++ "\", auth_level: " ++
                      toString authLevel ++ "\x7d") })
  else (b, .panicBadFormat)

/-- GetUserRequest, request phase: GET /api/user with the token header. -/
def goGetUserRequest_step (b : GoBassa) : GoBassa × GoStep :=
  (b, .request
    { method := .get, path := "/api/user", headers := [("token", some b.token)],
      body := .empty })

/-- Go's conversion string(i) on an int: the UTF-8 string of the single
rune whose code point is i, or the replacement character U+FFFD when i
is not a valid code point.  It is not a decimal rendering. -/
def goRuneString (n : Int) : String :=
  if (0 ≤ n ∧ n < 55296) ∨ (57344 ≤ n ∧ n < 1114112) then
    String.singleton (Char.ofNat n.toNat)
  else "�"

/-- GetDownloadUserRequests, request phase: a zero limit is replaced by
1, then the source appends string(limit) — the rune conversion
`goRuneString`, not a decimal rendering — to /api/user/downloads/. -/
def goGetDownloadUserRequests_step (b : GoBassa) (limit : Int) : GoBassa × GoStep :=
  let l := if limit = 0 then 1 else limit
  (b, .request
    { method := .get, path := "/api/user/downloads/" ++ goRuneString l,
      headers := [("token", some b.token)], body := .empty })

/-- Outcome of the response phase shared by every Go method other than
Login: the body is decoded as JSON with no status check (a decode
failure panics), and the decoded document is pretty-printed (the
prettyjson.Marshal rendering is external; the outcome carries the
document it renders). -/
inductive GoHandleOutcome where
  | panicDecode
  | ok (doc : Json)

/-- The response phase shared by the Go methods other than Login. -/
def goJsonHandle (r : GoResponse) : GoHandleOutcome :=
  match r.bodyJson with
  | none => .panicDecode
  | some j => .ok j

/-- RemoveUserRequest, response phase: `goJsonHandle` (the source decodes
and pretty-prints the body with no status check and returns the
rendering). -/
def goRemoveUserHandle (r : GoResponse) : GoHandleOutcome :=
  goJsonHandle r

/-- GetDownloadUserRequests, response phase: `goJsonHandle`. -/
def goGetDownloadUserHandle (r : GoResponse) : GoHandleOutcome :=
  goJsonHandle r

/- ---------------------------------------------------------------------
Concrete fixtures shared by the witnesses and counterexamples.
--------------------------------------------------------------------- -/

/-- A freshly constructed JS client (the headers a successful
construction installs). -/
def sampleClient : JsClient :=
  { apiUrl := "http://localhost:5000", total := 1, backoffFactor := 1,
    timeout := 5,
    headers := [("Content-Type", some "application/x-www-form-urlencoded")] }

/-- A freshly initialized Go client. -/
def sampleGo : GoBassa :=
  { apiURL := "http://localhost:5000", token := "", timeout := 5, retryCount := 1 }

/- ---------------------------------------------------------------------
Claims.
--------------------------------------------------------------------- -/

/-- C9: getDownloads with limit zero does not raise the
missing-parameter error; it issues exactly one GET request to
/api/downloads/0 (the request of the returned step) and leaves the
client unchanged; only an absent (undefined/null) limit raises the
required-parameter error. -/
theorem C9_getDownloads_zero_accepted (c : JsClient) :
    jsGetDownloadsRequest c (some 0) =
      (c, .request { method := .get, path := "/api/downloads/0",
                     headers := c.headers, body := .empty }) ∧
    jsGetDownloadsRequest c none =
      (c, .fail (.genericError "Limit is required to get downloads")) :=
  ⟨rfl, rfl⟩

/-- C10: the Go Login reads element 0 of the Token response-header slice
without a presence check, so every response lacking a Token header —
whatever its status — makes the access out of bounds (modelled as the
index-out-of-range panic outcome). -/
theorem C10_login_token_header_unsafe (b : GoBassa) (r : GoResponse)
    (h : r.tokenHeader = []) :
    goLoginHandle b r = .panicIndexOutOfRange := by
  unfold goLoginHandle
  rw [h]

/-- Witness for C10 at a concrete 200 response carrying no Token header. -/
theorem C10_login_token_header_unsafe_witness :
    goLoginHandle sampleGo { status := 200, tokenHeader := [], bodyJson := none } =
      .panicIndexOutOfRange :=
  C10_login_token_header_unsafe sampleGo
    { status := 200, tokenHeader := [], bodyJson := none } rfl

/-- C7 (code-bug evaluation): the Go GetDownloadUserRequests converts
the limit with string(int), so limit 5 yields the path
/api/user/downloads/ followed by the single rune U+0005 — not the
decimal /api/user/downloads/5 the claim states and the JS client builds;
the Go zero default maps 0 to the rune U+0001, while the JS client
interpolates an explicit 0 decimally and applies its default 1 only to
an absent argument. -/
theorem C7_limit_path_rune_conversion :
    (goGetDownloadUserRequests_step sampleGo 5).2 =
      .request { method := .get, path := "/api/user/downloads/\x05",
                 headers := [("token", some "")], body := .empty } ∧
    "/api/user/downloads/\x05" ≠ "/api/user/downloads/5" ∧
    (jsGetDownloadsUserRequest sampleClient (some 5)).2 =
      .request { method := .get, path := "/api/user/downloads/5",
                 headers := sampleClient.headers, body := .empty } ∧
    (jsGetDownloadsUserRequest sampleClient none).2 =
      .request { method := .get, path := "/api/user/downloads/1",
                 headers := sampleClient.headers, body := .empty } ∧
    (goGetDownloadUserRequests_step sampleGo 0).2 =
      .request { method := .get, path := "/api/user/downloads/\x01",
                 headers := [("token", some "")], body := .empty } ∧
    (jsGetDownloadsUserRequest sampleClient (some 0)).2 =
      .request { method := .get, path := "/api/user/downloads/0",
                 headers := sampleClient.headers, body := .empty } := by
  refine ⟨rfl, by decide, rfl, rfl, rfl, rfl⟩

/-- C1 counterexample: the claim fails as stated.  The Go
RemoveUserRequest handler, on a 404 response with a JSON body, raises no
error carrying the status: it decodes and returns the body as if the
call had succeeded.  And the JS addDownloadRequest handler's non-200
error is a fixed message that does not carry the status code. -/
theorem C1_counterexample :
    goRemoveUserHandle { status := 404, tokenHeader := [], bodyJson := some (.obj []) } =
      .ok (.obj []) ∧
    jsAddDownloadHandle { status := 500, token := none, bodyJson := some (.obj []) } =
      .error (.genericError "Add download was not successful") :=
  ⟨rfl, rfl⟩

/-- C1 amended: the JS operations that install a response handler parse
the JSON body and return it on HTTP 200, and on any other status raise
an error whose message carries the status — except addDownloadRequest,
whose non-200 message omits the status; the Go handlers never inspect
the status: they decode (and pretty-print) the JSON body whatever the
status, panicking only when the body is not JSON.  (The JS user-write
operations install no handler at all; see the response-phase section.) -/
theorem C1_amended_response_contract (r : JsResponse) (g : GoResponse) (j : Json) :
    (r.status = 200 → r.bodyJson = some j →
      jsGetDownloadsHandle r = .ok j ∧ jsGetUserHandle r = .ok j ∧
      jsStartDownloadHandle r = .ok j ∧ jsAddDownloadHandle r = .ok j) ∧
    (r.status ≠ 200 →
      jsGetDownloadsHandle r =
        .error (.genericError ("Get downloads failed with status " ++
          toString r.status)) ∧
      jsGetUserHandle r =
        .error (.genericError ("Request failed with status " ++
          toString r.status)) ∧
      jsGetDownloadHandle r =
        .error (.genericError ("Get download failed with status " ++
          toString r.status)) ∧
      jsRemoveDownloadHandle r =
        .error (.genericError ("Remove download failed with status " ++
          toString r.status)) ∧
      jsAddDownloadHandle r = .error (.genericError "Add download was not successful")) ∧
    (g.bodyJson = some j →
      goRemoveUserHandle g = .ok j ∧ goGetDownloadUserHandle g = .ok j) ∧
    (g.bodyJson = none → goRemoveUserHandle g = .panicDecode) := by
  refine ⟨fun h1 h2 => ?_, fun h1 => ?_, fun h1 => ?_, fun h1 => ?_⟩ <;>
    simp [jsGetDownloadsHandle, jsGetUserHandle, jsStartDownloadHandle,
      jsGetDownloadHandle, jsRemoveDownloadHandle, jsAddDownloadHandle,
      jsStdHandle, readJson, goRemoveUserHandle, goGetDownloadUserHandle,
      goJsonHandle, h1]
  · simp [h2]

/-- Witness for C1 amended at concrete 200 and 500 responses. -/
theorem C1_amended_response_contract_witness :
    jsGetDownloadsHandle { status := 200, token := none, bodyJson := some (.str "d") } =
      .ok (.str "d") ∧
    goRemoveUserHandle { status := 500, tokenHeader := [], bodyJson := some (.str "d") } =
      .ok (.str "d") :=
  ⟨((C1_amended_response_contract
      { status := 200, token := none, bodyJson := some (.str "d") }
      { status := 500, tokenHeader := [], bodyJson := some (.str "d") }
      (.str "d")).1 rfl rfl).1,
   ((C1_amended_response_contract
      { status := 200, token := none, bodyJson := some (.str "d") }
      { status := 500, tokenHeader := [], bodyJson := some (.str "d") }
      (.str "d")).2.2.1 rfl).1⟩

/-- C2 counterexample: the claim fails as stated on the Go client.  On a
401 response carrying a Token header, Go Login raises no response error
and does not leave the session token unchanged: it stores the header
value as the token. -/
theorem C2_counterexample :
    goLoginHandle sampleGo
      { status := 401, tokenHeader := ["evil"], bodyJson := none } =
    .ok { apiURL := "http://localhost:5000", token := "evil", timeout := 5,
          retryCount := 1 } :=
  rfl

/-- C2 amended: in the JS client the claim holds — login with non-empty
credentials posts the form-encoded credentials to /api/login, stores the
token response header into the stored headers exactly on status 200, and
on any other status leaves the client unchanged and raises ResponseError
carrying the status; the Go Login, however, performs no status check: on
any response carrying a Token header it stores the first value as the
session token (and when the header is absent it panics; see the C10
theorem). -/
theorem C2_amended_login_token (c : JsClient) (b : GoBassa) (u p : String)
    (r : JsResponse) (g : GoResponse) (t : String) (ts : List String)
    (hu : u ≠ "") (hp : p ≠ "") :
    jsLogin c u p =
      (c, .request { method := .post, path := "/api/login", headers := c.headers,
                     body := .form [("user_name", u), ("password", p)] }) ∧
    (r.status = 200 →
      jsLoginHandle c r =
        ({ c with headers := setHeader c.headers "token" r.token }, .ok ())) ∧
    (r.status ≠ 200 →
      jsLoginHandle c r =
        (c, .error (.responseError ("API response: " ++ toString r.status)))) ∧
    goLogin_step b u p =
      (b, .request { method := .post, path := "/api/login", headers := [],
                     body := .form [("user_name", u), ("password", p)] }) ∧
    (g.tokenHeader = t :: ts → goLoginHandle b g = .ok { b with token := t }) := by
  refine ⟨?_, fun h => ?_, fun h => ?_, ?_, fun h => ?_⟩
  · simp [jsLogin, hu, hp]
  · simp [jsLoginHandle, h]
  · simp [jsLoginHandle, h]
  · simp [goLogin_step, hu, hp]
  · unfold goLoginHandle
    rw [h]

/-- Witness for C2 amended at concrete credentials and responses. -/
theorem C2_amended_login_token_witness :
    jsLoginHandle sampleClient
      { status := 200, token := some "abc123", bodyJson := none } =
      ({ sampleClient with
          headers := setHeader sampleClient.headers "token" (some "abc123") },
       .ok ()) ∧
    jsLoginHandle sampleClient { status := 401, token := none, bodyJson := none } =
      (sampleClient, .error (.responseError "API response: 401")) :=
  ⟨(C2_amended_login_token sampleClient sampleGo "alice" "secret"
      { status := 200, token := some "abc123", bodyJson := none }
      { status := 200, tokenHeader := [], bodyJson := none } "" []
      (by decide) (by decide)).2.1 rfl,
   (C2_amended_login_token sampleClient sampleGo "alice" "secret"
      { status := 401, token := none, bodyJson := none }
      { status := 200, tokenHeader := [], bodyJson := none } "" []
      (by decide) (by decide)).2.2.1 (by decide)⟩

/-- C3: every modelled operation with required string arguments fails
with IncompleteParams (or the operation's empty-argument Error, or the
Go errIncompleteParams panic) when a required argument is empty or
absent, returning a fail/panic step — so no HTTP request descriptor is
produced and the validation happens before any network call. -/
theorem C3_empty_args_fail_fast (c : JsClient) (b : GoBassa)
    (u p e nu link id rate : String) (gids : List String) (a : Int)
    (al : Option Int) :
    (u = "" ∨ p = "" →
      jsLogin c u p = (c, .fail .incompleteParams) ∧
      goLogin_step b u p = (b, .panicIncomplete)) ∧
    (u = "" ∨ p = "" ∨ e = "" →
      jsAddRegularUserRequest c u p e = (c, .fail .incompleteParams) ∧
      jsAddUserRequest c u p e a = (c, .fail .incompleteParams) ∧
      goAddRegularUserRequest_step b u p e = (b, .panicIncomplete) ∧
      goAddUserRequest_step b u p e a = (b, .panicIncomplete)) ∧
    (u = "" →
      jsRemoveUserRequest c u = (c, .fail .incompleteParams) ∧
      jsApproveUserRequest c u = (c, .fail .incompleteParams) ∧
      jsBlockUserRequest c u = (c, .fail .incompleteParams) ∧
      jsUnblockUserRequest c u = (c, .fail .incompleteParams) ∧
      goRemoveUserRequest_step b u = (b, .panicIncomplete)) ∧
    (u = "" ∨ nu = "" ∨ p = "" ∨ al = none ∨ e = "" →
      jsUpdateUserRequest c u nu p al e = (c, .fail .incompleteParams)) ∧
    (u = "" ∨ p = "" ∨ e = "" ∨ nu = "" →
      goUpdateUserRequest_step b u nu p a e = (b, .panicIncomplete)) ∧
    (link = "" → jsAddDownloadRequest c link = (c, .fail .incompleteParams)) ∧
    (id = "" →
      jsRemoveDownloadRequest c id =
        (c, .fail (.genericError "ID is required to remove download")) ∧
      jsGetDownload c id =
        (c, .fail (.genericError "ID is required to get download")) ∧
      jsGetCompressionProgress c id =
        (c, .fail (.genericError "ID is required to get compression progress")) ∧
      jsSendFileFromPath c id =
        (c, .fail (.genericError "ID is required to send file from path"))) ∧
    (id = "" ∨ rate = "" →
      jsRateDownloadRequest c id rate =
        (c, .fail (.genericError "ID and rate are required to rate download"))) ∧
    (gids = [] →
      jsStartCompression c gids =
        (c, .fail (.genericError "GID list is required to start compression"))) := by
  refine ⟨fun h => ⟨?_, ?_⟩, fun h => ⟨?_, ?_, ?_, ?_⟩, fun h => ⟨?_, ?_, ?_, ?_, ?_⟩,
    fun h => ?_, fun h => ?_, fun h => ?_, fun h => ⟨?_, ?_, ?_, ?_⟩,
    fun h => ?_, fun h => ?_⟩
  · unfold jsLogin; rw [if_pos h]
  · unfold goLogin_step; rw [if_pos h]
  · unfold jsAddRegularUserRequest; rw [if_pos h]
  · unfold jsAddUserRequest; rw [if_pos h]
  · unfold goAddRegularUserRequest_step; rw [if_pos h]
  · unfold goAddUserRequest_step; rw [if_pos h]
  · unfold jsRemoveUserRequest; rw [if_pos h]
  · unfold jsApproveUserRequest; rw [if_pos h]
  · unfold jsBlockUserRequest; rw [if_pos h]
  · unfold jsUnblockUserRequest; rw [if_pos h]
  · unfold goRemoveUserRequest_step; rw [if_pos h]
  · unfold jsUpdateUserRequest; rw [if_pos h]
  · unfold goUpdateUserRequest_step; rw [if_pos h]
  · unfold jsAddDownloadRequest; rw [if_pos h]
  · unfold jsRemoveDownloadRequest; rw [if_pos h]
  · unfold jsGetDownload; rw [if_pos h]
  · unfold jsGetCompressionProgress; rw [if_pos h]
  · unfold jsSendFileFromPath; rw [if_pos h]
  · unfold jsRateDownloadRequest; rw [if_pos h]
  · unfold jsStartCompression; rw [if_pos h]

/-- Witness for C3 at concrete empty arguments. -/
theorem C3_empty_args_fail_fast_witness :
    jsLogin sampleClient "" "secret" = (sampleClient, .fail .incompleteParams) ∧
    goAddRegularUserRequest_step sampleGo "bob" "pw" "" =
      (sampleGo, .panicIncomplete) ∧
    jsStartCompression sampleClient [] =
      (sampleClient, .fail (.genericError "GID list is required to start compression")) :=
  ⟨((C3_empty_args_fail_fast sampleClient sampleGo "" "secret" "" "" "" "" "" [] 1
      none).1 (Or.inl rfl)).1,
   ((C3_empty_args_fail_fast sampleClient sampleGo "bob" "pw" "" "" "" "" "" [] 1
      none).2.1 (Or.inr (Or.inr rfl))).2.2.1,
   (C3_empty_args_fail_fast sampleClient sampleGo "bob" "pw" "" "" "" "" "" [] 1
      none).2.2.2.2.2.2.2.2 rfl⟩

/-- C4 counterexample: the claim fails as stated on the JS client.  With
the malformed email "not-an-email" (rejected by the repository's own
email pattern, as the second conjunct shows), addRegularUserRequest
raises no format error: it issues the POST request carrying the
malformed email. -/
theorem C4_counterexample :
    jsAddRegularUserRequest sampleClient "bob" "pw" "not-an-email" =
      (sampleClient, .request
        { method := .post, path := "/api/regularuser",
          headers := sampleClient.headers,
          body := .form [("user_name", "bob"), ("password", "pw"),
                         ("email", "not-an-email")] }) ∧
    goEmailOk "not-an-email" = false := by
  constructor
  · simp [jsAddRegularUserRequest]
  · decide

/-- C4 amended: only the Go client validates the email shape — its three
email-accepting operations panic with errBadFormat (before producing any
request descriptor) on any non-empty email the email regex rejects; the
JS email-accepting operations perform no format validation and issue the
request for any non-empty email. -/
theorem C4_amended_email_validation (c : JsClient) (b : GoBassa)
    (u p e nu : String) (a : Int)
    (hu : u ≠ "") (hp : p ≠ "") (he : e ≠ "") (hnu : nu ≠ "")
    (hbad : goEmailOk e = false) :
    goAddRegularUserRequest_step b u p e = (b, .panicBadFormat) ∧
    goAddUserRequest_step b u p e a = (b, .panicBadFormat) ∧
    goUpdateUserRequest_step b u nu p a e = (b, .panicBadFormat) ∧
    jsAddRegularUserRequest c u p e =
      (c, .request
        { method := .post, path := "/api/regularuser", headers := c.headers,
          body := .form [("user_name", u), ("password", p), ("email", e)] }) ∧
    jsAddUserRequest c u p e a =
      (c, .request
        { method := .post, path := "/api/user", headers := c.headers,
          body := .form [("user_name", u), ("password", p), ("email", e),
                         ("auth", toString a)] }) := by
  refine ⟨?_, ?_, ?_, ?_, ?_⟩ <;>
    simp [goAddRegularUserRequest_step, goAddUserRequest_step,
      goUpdateUserRequest_step, jsAddRegularUserRequest, jsAddUserRequest,
      hu, hp, he, hnu, hbad]

/-- Witness for C4 amended at the concrete malformed email. -/
theorem C4_amended_email_validation_witness :
    goAddRegularUserRequest_step sampleGo "bob" "pw" "not-an-email" =
      (sampleGo, .panicBadFormat) :=
  (C4_amended_email_validation sampleClient sampleGo "bob" "pw" "not-an-email"
    "newbob" 1 (by decide) (by decide) (by decide) (by decide) (by decide)).1

/-- C5 counterexample: the claim fails as stated on the Go client.  The
scheme-less string "notaurl" does not match the URL pattern (first
conjunct) and the JS constructor duly rejects it (second conjunct), but
Go construction with it succeeds — no InvalidURL error exists in the Go
client at all. -/
theorem C5_counterexample :
    jsUrlOk "notaurl" = false ∧
    jsConstructor "notaurl" 1 1 5 = .error .invalidUrl ∧
    goInit "notaurl" 5 1 =
      .ok { apiURL := "notaurl", token := "", timeout := 5, retryCount := 1 } := by
  refine ⟨by decide, ?_, ?_⟩
  · simp [jsConstructor, (by decide : jsUrlOk "notaurl" = false)]
  · simp [goInit, (by decide : goUrlParseAcceptsSimple "notaurl" = true)]

/-- C5 amended: the JS constructor fails with InvalidUrl exactly when
the base URL fails the HTTP(S)/FTP(S) pattern, and succeeds otherwise;
the Go Init performs no pattern validation: it panics with
errIncompleteParams only on an empty URL or zero timeout, and accepts
any string net/url.Parse accepts — in particular any scheme-less simple
string. -/
theorem C5_amended_url_validation (s good : String) (t rc : Int)
    (hbad : jsUrlOk s = false) (hgood : jsUrlOk good = true)
    (hs : s ≠ "") (ht : t ≠ 0) (hparse : goUrlParseAcceptsSimple s = true) :
    jsConstructor s 1 1 5 = .error .invalidUrl ∧
    jsConstructor good 1 1 5 =
      .ok { apiUrl := good, total := 1, backoffFactor := 1, timeout := 5,
            headers := [("Content-Type",
                         some "application/x-www-form-urlencoded")] } ∧
    goInit s t rc =
      .ok { apiURL := s, token := "", timeout := t, retryCount := rc } := by
  refine ⟨?_, ?_, ?_⟩
  · simp [jsConstructor, hbad]
  · simp [jsConstructor, hgood]
  · simp [goInit, hs, ht, hparse]

/-- Witness for C5 amended at "notaurl" and a well-formed URL. -/
theorem C5_amended_url_validation_witness :
    jsConstructor "notaurl" 1 1 5 = .error .invalidUrl ∧
    goInit "notaurl" 5 1 =
      .ok { apiURL := "notaurl", token := "", timeout := 5, retryCount := 1 } :=
  ⟨(C5_amended_url_validation "notaurl" "http://localhost:5000" 5 1 (by decide)
      (by decide) (by decide) (by decide) (by decide)).1,
   (C5_amended_url_validation "notaurl" "http://localhost:5000" 5 1 (by decide)
      (by decide) (by decide) (by decide) (by decide)).2.2⟩

/-- C6 counterexample: the claim fails as stated on the Go client.  For
the user-write operation AddRegularUserRequest — which the claim places
in the form-encoded group — the issued request's body is a JSON object
(json.Marshal of the credentials map), not a form-encoded body. -/
theorem C6_counterexample :
    stepBodyGo (goAddRegularUserRequest_step sampleGo "bob" "pw" "a@b.co").2 =
      some (.jsonBody (.obj [("email", .str "a@b.co"), ("password", .str "pw"),
                             ("user_name", .str "bob")])) ∧
    (stepBodyGo (goAddRegularUserRequest_step sampleGo "bob" "pw" "a@b.co").2).map
        isFormBody = some false := by
  constructor
  · simp [goAddRegularUserRequest_step, stepBodyGo,
      (by decide : goEmailOk "a@b.co" = true)]
  · simp [goAddRegularUserRequest_step, stepBodyGo, isFormBody,
      (by decide : goEmailOk "a@b.co" = true)]

/-- C6 amended: in the JS client the wire contract holds — login and the
user-write operations send form-encoded key/value bodies, and the
download/compress operations send serializer-produced JSON bodies; in
the Go client only Login is form-encoded: AddRegularUserRequest sends a
JSON object body, and AddUserRequest (like UpdateUserRequest) sends a
fmt.Sprintf-formatted brace-delimited raw string that is neither
form-encoded nor serializer-produced JSON. -/
theorem C6_amended_body_encodings (c : JsClient) (b : GoBassa)
    (u p e nu link id rate : String) (gids : List String) (a : Int)
    (hu : u ≠ "") (hp : p ≠ "") (he : e ≠ "") (hnu : nu ≠ "")
    (hlink : link ≠ "") (hid : id ≠ "") (hrate : rate ≠ "")
    (hgids : gids ≠ []) (hemail : goEmailOk e = true) :
    (jsLogin c u p).2 =
      .request { method := .post, path := "/api/login", headers := c.headers,
                 body := .form [("user_name", u), ("password", p)] } ∧
    (jsAddRegularUserRequest c u p e).2 =
      .request { method := .post, path := "/api/regularuser", headers := c.headers,
                 body := .form [("user_name", u), ("password", p), ("email", e)] } ∧
    (jsAddUserRequest c u p e a).2 =
      .request { method := .post, path := "/api/user", headers := c.headers,
                 body := .form [("user_name", u), ("password", p), ("email", e),
                                ("auth", toString a)] } ∧
    (jsUpdateUserRequest c u nu p (some a) e).2 =
      .request { method := .put, path := "/api/user/" ++ u, headers := c.headers,
                 body := .form [("user_name", nu), ("password", p),
                                ("auth_level", toString a), ("email", e)] } ∧
    (jsAddDownloadRequest c link).2 =
      .request { method := .post, path := "/api/download", headers := c.headers,
                 body := .jsonBody (.obj [("link", .str link)]) } ∧
    (jsRateDownloadRequest c id rate).2 =
      .request { method := .post, path := "/api/download/" ++ id,
                 headers := c.headers,
                 body := .jsonBody (.obj [("rate", .str rate)]) } ∧
    (jsStartCompression c gids).2 =
      .request { method := .post, path := "/api/compress", headers := c.headers,
                 body := .jsonBody (.obj [("gid", .arr (gids.map .str))]) } ∧
    (goLogin_step b u p).2 =
      .request { method := .post, path := "/api/login", headers := [],
                 body := .form [("user_name", u), ("password", p)] } ∧
    (goAddRegularUserRequest_step b u p e).2 =
      .request { method := .post, path := "/api/regularuser",
                 headers := [("token", some b.token)],
                 body := .jsonBody (.obj [("email", .str e), ("password", .str p),
                                          ("user_name", .str u)]) } ∧
    (goAddUserRequest_step b u p e a).2 =
      .request { method := .post, path := "/api/user",
                 headers := [("token", some b.token)],
                 body := .raw ("\x7buser_name:\"" ++ u ++ "\", password: \"" ++ p ++
                               "\", email: \"" ++ e ++ "\", auth: " ++ toString a ++
                               "\x7d") } := by
  refine ⟨?_, ?_, ?_, ?_, ?_, ?_, ?_, ?_, ?_, ?_⟩ <;>
    simp [jsLogin, jsAddRegularUserRequest, jsAddUserRequest, jsUpdateUserRequest,
      jsAddDownloadRequest, jsRateDownloadRequest, jsStartCompression,
      goLogin_step, goAddRegularUserRequest_step, goAddUserRequest_step,
      hu, hp, he, hnu, hlink, hid, hrate, hgids, hemail]

/-- Witness for C6 amended at concrete arguments. -/
theorem C6_amended_body_encodings_witness :
    (jsLogin sampleClient "alice" "secret").2 =
      .request { method := .post, path := "/api/login",
                 headers := sampleClient.headers,
                 body := .form [("user_name", "alice"), ("password", "secret")] } ∧
    (goAddUserRequest_step sampleGo "bob" "pw" "a@b.co" 1).2 =
      .request { method := .post, path := "/api/user",
                 headers := [("token", some sampleGo.token)],
                 body := .raw "\x7buser_name:\"bob\", password: \"pw\", email: \"a@b.co\", auth: 1\x7d" } :=
  ⟨(C6_amended_body_encodings sampleClient sampleGo "alice" "secret" "a@b.co"
      "newbob" "http://f.io/x" "7" "100" ["g1"] 1 (by decide) (by decide)
      (by decide) (by decide) (by decide) (by decide) (by decide) (by decide)
      (by decide)).1,
   (C6_amended_body_encodings sampleClient sampleGo "bob" "pw" "a@b.co"
      "newbob" "http://f.io/x" "7" "100" ["g1"] 1 (by decide) (by decide)
      (by decide) (by decide) (by decide) (by decide) (by decide) (by decide)
      (by decide)).2.2.2.2.2.2.2.2.2⟩

/-- C8 counterexample: the claim fails as stated on the JS client.  The
non-login operation startDownload does not leave the stored headers
unchanged: on a fresh client it appends the key header with the default
server key, and the mutated client is not the original one. -/
theorem C8_counterexample :
    (jsStartDownload sampleClient none).1.headers =
      [("Content-Type", some "application/x-www-form-urlencoded"),
       ("key", some "123456789")] ∧
    (jsStartDownload sampleClient none).1 ≠ sampleClient :=
  ⟨rfl, by decide⟩

/-- C8 amended: every modelled non-login operation except startDownload
and killDownload leaves the client state (base URL, timeout, retry
settings and stored headers, the session token included) unchanged;
startDownload and killDownload overwrite the key entry of the stored
headers with the server key, a change that persists for subsequent
calls; the JS login modifies the stored headers exactly on a 200
response (writing the token entry), while the Go Login stores the Token
response header as the session token on any response carrying one,
successful or not. -/
theorem C8_amended_frame (c : JsClient) (b : GoBassa)
    (u p e nu link id rate : String) (gids : List String) (a : Int)
    (al lim : Option Int) (sk : Option String)
    (r : JsResponse) (g : GoResponse) (t : String) (ts : List String) :
    (jsLogin c u p).1 = c ∧
    (jsAddRegularUserRequest c u p e).1 = c ∧
    (jsAddUserRequest c u p e a).1 = c ∧
    (jsRemoveUserRequest c u).1 = c ∧
    (jsUpdateUserRequest c u nu p al e).1 = c ∧
    (jsGetUserRequest c).1 = c ∧
    (jsGetUserSignupRequests c).1 = c ∧
    (jsApproveUserRequest c u).1 = c ∧
    (jsGetBlockedUsersRequest c).1 = c ∧
    (jsBlockUserRequest c u).1 = c ∧
    (jsUnblockUserRequest c u).1 = c ∧
    (jsGetDownloadsUserRequest c lim).1 = c ∧
    (jsGetToptenHeaviestUsers c).1 = c ∧
    (jsAddDownloadRequest c link).1 = c ∧
    (jsRemoveDownloadRequest c id).1 = c ∧
    (jsRateDownloadRequest c id rate).1 = c ∧
    (jsGetDownloadsRequest c lim).1 = c ∧
    (jsGetDownload c id).1 = c ∧
    (jsStartCompression c gids).1 = c ∧
    (jsGetCompressionProgress c id).1 = c ∧
    (jsSendFileFromPath c id).1 = c ∧
    (jsStartDownload c sk).1 =
      { c with headers := setHeader c.headers "key"
                 (some (sk.getD "123456789")) } ∧
    (jsKillDownload c sk).1 =
      { c with headers := setHeader c.headers "key"
                 (some (sk.getD "123456789")) } ∧
    (r.status ≠ 200 → (jsLoginHandle c r).1 = c) ∧
    (r.status = 200 →
      (jsLoginHandle c r).1 =
        { c with headers := setHeader c.headers "token" r.token }) ∧
    (goLogin_step b u p).1 = b ∧
    (goAddRegularUserRequest_step b u p e).1 = b ∧
    (goAddUserRequest_step b u p e a).1 = b ∧
    (goRemoveUserRequest_step b u).1 = b ∧
    (goUpdateUserRequest_step b u nu p a e).1 = b ∧
    (goGetUserRequest_step b).1 = b ∧
    (goGetDownloadUserRequests_step b a).1 = b ∧
    (g.tokenHeader = t :: ts → goLoginHandle b g = .ok { b with token := t }) := by
  refine ⟨?_, ?_, ?_, ?_, ?_, ?_, ?_, ?_, ?_, ?_, ?_, ?_, ?_, ?_, ?_, ?_, ?_,
    ?_, ?_, ?_, ?_, ?_, ?_, ?_, ?_, ?_, ?_, ?_, ?_, ?_, ?_, ?_, ?_⟩
  · unfold jsLogin; split <;> rfl
  · unfold jsAddRegularUserRequest; split <;> rfl
  · unfold jsAddUserRequest; split <;> rfl
  · unfold jsRemoveUserRequest; split <;> rfl
  · unfold jsUpdateUserRequest; split <;> rfl
  · rfl
  · rfl
  · unfold jsApproveUserRequest; split <;> rfl
  · rfl
  · unfold jsBlockUserRequest; split <;> rfl
  · unfold jsUnblockUserRequest; split <;> rfl
  · rfl
  · rfl
  · unfold jsAddDownloadRequest; split <;> rfl
  · unfold jsRemoveDownloadRequest; split <;> rfl
  · unfold jsRateDownloadRequest; split <;> rfl
  · cases lim <;> rfl
  · unfold jsGetDownload; split <;> rfl
  · unfold jsStartCompression; split <;> rfl
  · unfold jsGetCompressionProgress; split <;> rfl
  · unfold jsSendFileFromPath; split <;> rfl
  · rfl
  · rfl
  · intro h; simp [jsLoginHandle, h]
  · intro h; simp [jsLoginHandle, h]
  · unfold goLogin_step; split <;> rfl
  · unfold goAddRegularUserRequest_step
    split <;> first | rfl | (split <;> rfl)
  · unfold goAddUserRequest_step
    split <;> first | rfl | (split <;> rfl)
  · unfold goRemoveUserRequest_step; split <;> rfl
  · unfold goUpdateUserRequest_step
    split <;> first | rfl | (split <;> rfl)
  · rfl
  · rfl
  · intro h; unfold goLoginHandle; rw [h]

/-- Witness for C8 amended: the login handler leaves the client
unchanged on a 401 response. -/
theorem C8_amended_frame_witness :
    (jsLoginHandle sampleClient
       { status := 401, token := none, bodyJson := none }).1 = sampleClient :=
  (C8_amended_frame sampleClient sampleGo "u" "p" "e" "nu" "l" "i" "r" [] 1 none
    none none { status := 401, token := none, bodyJson := none }
    { status := 200, tokenHeader := [], bodyJson := none } "" []).2.2.2.2.2.2.2.2.2.2.2.2.2.2.2.2.2.2.2.2.2.2.2.1
    (by decide)

end Bassa
